import Mathlib

/-!
Shallow embedding of the Brain-Arena sources for spec verification.

Source files embedded here:
* `frontend/src/services/TimerService.ts` — countdown timer (`start`, `update`).
* `frontend/src/core/managers/QuizUIManager.ts` — quiz panel manager
  (`showQuestion`, `setFeedback`, `hideAll`, `getInteractiveObjects`,
  `getSelectedOptionIndex`).
* `frontend/src/components/QuizContainer3D.ts` — the textured plane the quiz
  is painted on (`updateQuiz`, `drawOptions`, constructor geometry).
* `frontend/src/core/managers/InteractionManager.ts` — ray dispatch for
  pointer and VR-controller input (`checkIntersection`).
* `backend/src/questions/questions.service.ts` — question DTO mapping
  (`getRandom`, `mapToPublicDto`).

Time values, coordinates and canvas pixels are modelled as exact rationals
(`ℚ`); JavaScript numbers carry no overflow semantics relevant to these
claims.  Callback invocations are modelled as emitted event lists.
-/

namespace BrainArena

/-! ## TimerService (frontend/src/services/TimerService.ts)

State fields mirror the private fields of the class.  The two nullable
callbacks `onTickCallback` / `onExpireCallback` are modelled by the booleans
`hasTick` / `hasExpire` (registered or not); an `update` call emits the
notifications it would deliver as a list of `TimerEvent`s, in invocation
order.  The `clockTickSpeedUpAudio.play()` side effect is the `audioStart`
event. -/

structure TimerState where
  timeRemaining : ℚ
  maxTime : ℚ
  isRunning : Bool
  audioStarted : Bool
  hasTick : Bool
  hasExpire : Bool
  deriving Repr, DecidableEq

inductive TimerEvent where
  | tick (t : ℚ)
  | expire
  | audioStart
  deriving Repr, DecidableEq

/-- `TimerService.start(duration)`: sets `maxTime` and `timeRemaining` to the
duration, marks the timer running and clears `audioStarted`.  The source
performs no validation of `duration`. -/
def TimerState.start (s : TimerState) (duration : ℚ) : TimerState :=
  { s with maxTime := duration, timeRemaining := duration,
           isRunning := true, audioStarted := false }

/-- `TimerService.stop()`: stops without firing expiry; `resetClockAudio`
clears the audio-started flag. -/
def TimerState.stop (s : TimerState) : TimerState :=
  { s with isRunning := false, audioStarted := false }

/-- `TimerService.update(deltaSeconds)`: returns the new state and the
notifications delivered during the call, in order.  Mirrors the source:
early return when not running; decrement; tick notification (clamped at 0)
when a tick callback is registered; audio start below 9 seconds; expiry
handling when the remaining time is `<= 0`. -/
def TimerState.update (s : TimerState) (deltaSeconds : ℚ) :
    TimerState × List TimerEvent :=
  if s.isRunning = false then (s, [])
  else
    let r := s.timeRemaining - deltaSeconds
    let tickEvs := if s.hasTick then [TimerEvent.tick (max 0 r)] else []
    let audio : Bool := r < 9 && !s.audioStarted
    let audioEvs := if audio then [TimerEvent.audioStart] else []
    let s1 : TimerState :=
      { s with timeRemaining := r, audioStarted := s.audioStarted || audio }
    if r ≤ 0 then
      ({ s1 with timeRemaining := 0, isRunning := false, audioStarted := false },
        tickEvs ++ audioEvs ++ (if s.hasExpire then [TimerEvent.expire] else []))
    else (s1, tickEvs ++ audioEvs)

/-- Runs a sequence of `update` calls, collecting each call's event list. -/
def runUpdates (s : TimerState) : List ℚ → TimerState × List (List TimerEvent)
  | [] => (s, [])
  | d :: ds =>
    let step := s.update d
    let rest := runUpdates step.1 ds
    (rest.1, step.2 :: rest.2)

/-- Number of expiry notifications in an event list. -/
def countExpire (evs : List TimerEvent) : ℕ :=
  evs.count TimerEvent.expire

/-- The timer state right after construction of `TimerService` (fields
initialisers), with the two callbacks registered or not. -/
def initTimer (hasTick hasExpire : Bool) : TimerState :=
  { timeRemaining := 0, maxTime := 20, isRunning := false,
    audioStarted := false, hasTick := hasTick, hasExpire := hasExpire }

theorem update_not_running (s : TimerState) (d : ℚ)
    (h : s.isRunning = false) : s.update d = (s, []) := by
  simp [TimerState.update, h]

theorem update_running_expired (s : TimerState) (d : ℚ)
    (hrun : s.isRunning = true) (h : s.timeRemaining - d ≤ 0) :
    s.update d =
      ({ s with timeRemaining := 0, isRunning := false, audioStarted := false },
        (if s.hasTick then [TimerEvent.tick (max 0 (s.timeRemaining - d))] else [])
        ++ (if (s.timeRemaining - d < 9 && !s.audioStarted) then [TimerEvent.audioStart] else [])
        ++ (if s.hasExpire then [TimerEvent.expire] else [])) := by
  simp [TimerState.update, hrun, h]

theorem update_running_live (s : TimerState) (d : ℚ)
    (hrun : s.isRunning = true) (h : 0 < s.timeRemaining - d) :
    s.update d =
      ({ s with timeRemaining := s.timeRemaining - d,
                audioStarted := s.audioStarted || (s.timeRemaining - d < 9 && !s.audioStarted) },
        (if s.hasTick then [TimerEvent.tick (max 0 (s.timeRemaining - d))] else [])
        ++ (if (s.timeRemaining - d < 9 && !s.audioStarted) then [TimerEvent.audioStart] else [])) := by
  simp [TimerState.update, hrun, not_le.mpr h]

theorem runUpdates_not_running (s : TimerState) (ds : List ℚ)
    (h : s.isRunning = false) :
    runUpdates s ds = (s, List.replicate ds.length []) := by
  induction ds with
  | nil => simp [runUpdates]
  | cons d ds ih =>
    simp [runUpdates, update_not_running s d h, ih, List.replicate_succ]

theorem countExpire_expired_events (s : TimerState) (d : ℚ) :
    countExpire
      ((if s.hasTick then [TimerEvent.tick (max 0 (s.timeRemaining - d))] else [])
        ++ (if (s.timeRemaining - d < 9 && !s.audioStarted) then [TimerEvent.audioStart] else [])
        ++ (if s.hasExpire then [TimerEvent.expire] else [])) =
      if s.hasExpire then 1 else 0 := by
  rcases Bool.eq_false_or_eq_true s.hasTick with h1 | h1 <;>
    rcases Bool.eq_false_or_eq_true s.hasExpire with h2 | h2 <;>
      rcases Bool.eq_false_or_eq_true (s.timeRemaining - d < 9 && !s.audioStarted) with h3 | h3 <;>
        simp [countExpire, h1, h2, h3]

theorem countExpire_live_events (s : TimerState) (d : ℚ) :
    countExpire
      ((if s.hasTick then [TimerEvent.tick (max 0 (s.timeRemaining - d))] else [])
        ++ (if (s.timeRemaining - d < 9 && !s.audioStarted) then [TimerEvent.audioStart] else [])) = 0 := by
  rcases Bool.eq_false_or_eq_true s.hasTick with h1 | h1 <;>
    rcases Bool.eq_false_or_eq_true (s.timeRemaining - d < 9 && !s.audioStarted) with h3 | h3 <;>
      simp [countExpire, h1, h3]

/-- Main invariant: starting from a running state with positive remaining
time `r`, the `k`-th update fires expiry exactly when the cumulative elapsed
time first reaches `r` at step `k`. -/
theorem expire_characterisation (ds : List ℚ) (hnn : ∀ x ∈ ds, 0 ≤ x)
    (s : TimerState) (hrun : s.isRunning = true) (hexp : s.hasExpire = true)
    (hpos : 0 < s.timeRemaining) :
    ∀ k, k < ds.length →
      countExpire ((runUpdates s ds).2.getD k []) =
        if s.timeRemaining ≤ (ds.take (k + 1)).sum ∧ (ds.take k).sum < s.timeRemaining
        then 1 else 0 := by
  induction ds generalizing s with
  | nil => intro k hk; simp at hk
  | cons d ds ih =>
    intro k hk
    have hd0 : 0 ≤ d := hnn d (by simp)
    by_cases hle : s.timeRemaining - d ≤ 0
    · -- the first update expires
      have hstep := update_running_expired s d hrun hle
      have hstop : (s.update d).1.isRunning = false := by rw [hstep]
      have hrest := runUpdates_not_running (s.update d).1 ds hstop
      match k with
      | 0 =>
        simp only [runUpdates, hrest, List.getD_cons_zero]
        rw [show (s.update d).2 = _ from congrArg Prod.snd hstep,
          countExpire_expired_events s d, hexp]
        have hcond : s.timeRemaining ≤ ((d :: ds).take (0 + 1)).sum ∧
            ((d :: ds).take 0).sum < s.timeRemaining := by
          constructor
          · simp only [zero_add, List.take_succ_cons, List.take_zero,
              List.sum_cons, List.sum_nil, add_zero]
            linarith
          · simpa using hpos
        rw [if_pos hcond]
        simp
      | k + 1 =>
        simp only [runUpdates, hrest, List.getD_cons_succ]
        have hlen : k < ds.length := by simpa using hk
        have hnil : (List.replicate ds.length ([] : List TimerEvent)).getD k [] = [] := by
          rw [List.getD_eq_getElem?_getD, List.getElem?_replicate]
          simp [hlen]
        rw [hnil]
        have hsumnn : 0 ≤ (ds.take k).sum :=
          List.sum_nonneg (fun x hx =>
            hnn x (List.mem_cons_of_mem d (List.mem_of_mem_take hx)))
        have hcond : ¬ (s.timeRemaining ≤ ((d :: ds).take (k + 1 + 1)).sum ∧
            ((d :: ds).take (k + 1)).sum < s.timeRemaining) := by
          rintro ⟨-, h2⟩
          simp only [List.take_succ_cons, List.sum_cons] at h2
          linarith
        rw [if_neg hcond]
        simp [countExpire]
    · -- the timer keeps running after the first update
      push_neg at hle
      have hstep := update_running_live s d hrun hle
      have h1run : (s.update d).1.isRunning = true := by rw [hstep]; exact hrun
      have h1exp : (s.update d).1.hasExpire = true := by rw [hstep]; exact hexp
      have h1rem : (s.update d).1.timeRemaining = s.timeRemaining - d := by rw [hstep]
      match k with
      | 0 =>
        simp only [runUpdates, List.getD_cons_zero]
        rw [show (s.update d).2 = _ from congrArg Prod.snd hstep,
          countExpire_live_events s d]
        have hcond : ¬ (s.timeRemaining ≤ ((d :: ds).take (0 + 1)).sum ∧
            ((d :: ds).take 0).sum < s.timeRemaining) := by
          rintro ⟨h1, -⟩
          simp only [zero_add, List.take_succ_cons, List.take_zero,
            List.sum_cons, List.sum_nil, add_zero] at h1
          linarith
        rw [if_neg hcond]
      | k + 1 =>
        simp only [runUpdates, List.getD_cons_succ]
        have hlen : k < ds.length := by simpa using hk
        have hih := ih (fun x hx => hnn x (List.mem_cons_of_mem d hx)) (s.update d).1
          h1run h1exp (by rw [h1rem]; linarith) k hlen
        rw [hih, h1rem]
        by_cases hc : s.timeRemaining - d ≤ (ds.take (k + 1)).sum ∧
            (ds.take k).sum < s.timeRemaining - d
        · rw [if_pos hc, if_pos]
          constructor
          · simp only [List.take_succ_cons, List.sum_cons]; linarith [hc.1]
          · simp only [List.take_succ_cons, List.sum_cons]; linarith [hc.2]
        · rw [if_neg hc, if_neg]
          intro hc2
          refine hc ⟨?_, ?_⟩
          · have := hc2.1
            simp only [List.take_succ_cons, List.sum_cons] at this
            linarith
          · have := hc2.2
            simp only [List.take_succ_cons, List.sum_cons] at this
            linarith

/-- Whether an event is a tick notification. -/
def isTick : TimerEvent → Bool
  | .tick _ => true
  | _ => false

theorem isTick_audio_list (c : Prop) [Decidable c] :
    ∀ e ∈ (if c then [TimerEvent.audioStart] else []), isTick e = false := by
  split <;> simp [isTick]

theorem isTick_expire_list (c : Prop) [Decidable c] :
    ∀ e ∈ (if c then [TimerEvent.expire] else []), isTick e = false := by
  split <;> simp [isTick]

/-- C4: after `start(d)` with `d > 0`, over any sequence of `update(delta)`
calls with nonnegative deltas, the expiry notification fires exactly once —
in the first update whose cumulative elapsed time reaches or exceeds `d` —
and in no other update; and `update` on a non-running timer leaves the state
unchanged and fires no notifications. -/
theorem claim_C4_expiry_exactly_once (d : ℚ) (hd : 0 < d)
    (deltas : List ℚ) (hnn : ∀ x ∈ deltas, 0 ≤ x)
    (s : TimerState) (hexp : s.hasExpire = true) :
    (∀ k, k < deltas.length →
      countExpire ((runUpdates (s.start d) deltas).2.getD k []) =
        if d ≤ (deltas.take (k + 1)).sum ∧ (deltas.take k).sum < d then 1 else 0)
    ∧ (∀ (s' : TimerState) (δ : ℚ), s'.isRunning = false → s'.update δ = (s', [])) := by
  constructor
  · intro k hk
    exact expire_characterisation deltas hnn (s.start d) rfl hexp hd k hk
  · exact fun s' δ h => update_not_running s' δ h

theorem claim_C4_expiry_exactly_once_witness :
    countExpire ((runUpdates ((initTimer true true).start 10) [3, 3, 3, 3, 3]).2.getD 3 []) = 1 ∧
    countExpire ((runUpdates ((initTimer true true).start 10) [3, 3, 3, 3, 3]).2.getD 4 []) = 0 := by
  have h := claim_C4_expiry_exactly_once 10 (by norm_num) [3, 3, 3, 3, 3]
    (by intro x hx; fin_cases hx <;> norm_num) (initTimer true true) rfl
  constructor
  · rw [h.1 3 (by norm_num)]
    norm_num
  · rw [h.1 4 (by norm_num)]
    norm_num

/-- C5: every `update(delta)` call on a running timer (with a tick callback
registered) delivers the tick notification exactly once, with the value
`max 0 (remaining - delta)`, and the tick is the first notification of the
call — it strictly precedes any expiry (or audio) notification delivered in
the same call. -/
theorem claim_C5_tick_once_first (s : TimerState) (δ : ℚ)
    (hrun : s.isRunning = true) (ht : s.hasTick = true) :
    ∃ rest, (s.update δ).2 = TimerEvent.tick (max 0 (s.timeRemaining - δ)) :: rest ∧
      ∀ e ∈ rest, isTick e = false := by
  by_cases h : s.timeRemaining - δ ≤ 0
  · have hstep := update_running_expired s δ hrun h
    rw [show (s.update δ).2 = _ from congrArg Prod.snd hstep, ht]
    refine ⟨(if (s.timeRemaining - δ < 9 && !s.audioStarted) = true
          then [TimerEvent.audioStart] else [])
        ++ (if s.hasExpire = true then [TimerEvent.expire] else []), by simp, ?_⟩
    intro e he
    rcases List.mem_append.mp he with h1 | h2
    · exact isTick_audio_list _ e h1
    · exact isTick_expire_list _ e h2
  · have hstep := update_running_live s δ hrun (by linarith [not_le.mp h])
    rw [show (s.update δ).2 = _ from congrArg Prod.snd hstep, ht]
    refine ⟨(if (s.timeRemaining - δ < 9 && !s.audioStarted) = true
        then [TimerEvent.audioStart] else []), by simp, ?_⟩
    intro e he
    exact isTick_audio_list _ e he

theorem claim_C5_tick_once_first_witness :
    ∃ rest,
      (({ timeRemaining := 10, maxTime := 20, isRunning := true, audioStarted := false,
          hasTick := true, hasExpire := true } : TimerState).update 3).2 =
        TimerEvent.tick (max 0 (10 - 3)) :: rest ∧ ∀ e ∈ rest, isTick e = false :=
  claim_C5_tick_once_first _ 3 rfl rfl

/-- C6 (counterexample): the claim says `start` with a non-positive duration
raises `InvalidDuration` and leaves the state unchanged.  In the source,
`start(-1)` performs no validation: it mutates the state (setting the
remaining time to `-1` and marking the timer running). -/
theorem claim_C6_counterexample :
    (initTimer true true).start (-1) ≠ initTimer true true ∧
    ((initTimer true true).start (-1)).isRunning = true ∧
    ((initTimer true true).start (-1)).timeRemaining = -1 := by
  refine ⟨?_, rfl, rfl⟩
  intro h
  have hb := congrArg TimerState.isRunning h
  simp [TimerState.start, initTimer] at hb

/-- C6 (amended): `start(d)` with a non-positive duration `d ≤ 0` raises no
error and does not reject the call: it mutates the state exactly as for any
duration, setting `maxTime` and `timeRemaining` to `d`, marking the timer
running and clearing the audio flag. -/
theorem claim_C6_amended (s : TimerState) (d : ℚ) (_hd : d ≤ 0) :
    s.start d = { s with maxTime := d, timeRemaining := d,
                         isRunning := true, audioStarted := false } := rfl

theorem claim_C6_amended_witness :
    (-1 : ℚ) ≤ 0 ∧ (initTimer true true).start (-1) =
      { initTimer true true with maxTime := -1, timeRemaining := -1,
                                 isRunning := true, audioStarted := false } :=
  ⟨by norm_num, claim_C6_amended (initTimer true true) (-1) (by norm_num)⟩

/-! ## QuizContainer3D (frontend/src/components/QuizContainer3D.ts)

`QuizContainerData` mirrors the exported interface; the optional
`selectedIndex` / `correctIndex` fields are `Option ℕ`.  The container's
mutable state is its `currentData` plus a repaint counter standing for the
`redrawDynamicContent` calls (texture uploads). -/

structure QuizContainerData where
  question : String
  options : List String
  selectedIndex : Option ℕ := none
  correctIndex : Option ℕ := none
  deriving Repr, DecidableEq

structure ContainerState where
  currentData : Option QuizContainerData
  repaintCount : ℕ
  deriving Repr, DecidableEq

/-- `QuizContainer3D.updateQuiz(data)` (with the default
`fullRedraw = false`): stores the data and repaints the dynamic content. -/
def ContainerState.updateQuiz (c : ContainerState) (data : QuizContainerData) :
    ContainerState :=
  { currentData := some data, repaintCount := c.repaintCount + 1 }

/-- A freshly constructed `QuizContainer3D`: no current data yet, only the
static background has been drawn. -/
def newContainer : ContainerState :=
  { currentData := none, repaintCount := 0 }

/-- Geometry constant from the `QuizContainer3D` constructor:
`new THREE.PlaneGeometry(1.6, 1.6)` — the physical side length of the plane
the 1024×1024 canvas texture is stretched over. -/
def planeSide : ℚ := 8 / 5

/-- Canvas side in pixels (`canvas.width = 1024; canvas.height = 1024`). -/
def canvasSide : ℚ := 1024

/-- The paint transform: the canvas pixel at which a panel-local point is
drawn.  A `planeSide × planeSide` plane carries the full texture, so local
`x ∈ [-planeSide/2, planeSide/2]` maps linearly to canvas
`X ∈ [0, canvasSide]` left-to-right and local `y` maps to canvas `Y`
top-to-bottom (canvas Y grows downward, local y grows upward). -/
def paintCanvasOfLocal (p : ℚ × ℚ) : ℚ × ℚ :=
  ((p.1 / planeSide + 1 / 2) * canvasSide, (1 / 2 - p.2 / planeSide) * canvasSide)

/-- Layout constants of `QuizContainer3D.drawOptions` — the canvas rectangle
(pill) of option `i`: X from `optionX` to `optionX + optionWidth`, Y from
`startY + i*(optionHeight+optionSpacing)` for `optionHeight` pixels. -/
def pillContains (i : ℕ) (q : ℚ × ℚ) : Prop :=
  let startY : ℚ := 450
  let optionHeight : ℚ := 100
  let optionSpacing : ℚ := 20
  let optionWidth : ℚ := 1024 - 160
  let optionX : ℚ := (1024 - optionWidth) / 2
  let y := startY + (i : ℚ) * (optionHeight + optionSpacing)
  optionX ≤ q.1 ∧ q.1 ≤ optionX + optionWidth ∧ y ≤ q.2 ∧ q.2 ≤ y + optionHeight

instance (i : ℕ) (q : ℚ × ℚ) : Decidable (pillContains i q) := by
  unfold pillContains; infer_instance

/-- Option styling state computed per option in
`QuizContainer3D.drawOptions`: background gradient endpoints, border and
text colours. -/
structure OptionStyle where
  bgStart : String
  bgEnd : String
  borderColor : String
  textColor : String
  deriving Repr, DecidableEq

/-- The style `drawOptions` arrives at for option `index`, given the current
data's `selectedIndex` and `correctIndex`: straight-line translation of the
mutable `let` variables and the two `if` blocks. -/
def optionStyle (selectedIndex correctIndex : Option ℕ) (index : ℕ) : OptionStyle :=
  let s0 : OptionStyle :=
    { bgStart := "#9B5DFF", bgEnd := "#7B3FDF",
      borderColor := "#D9A500", textColor := "#FFFFFF" }
  let s1 := if selectedIndex = some index
    then { s0 with bgStart := "#6B25C4", borderColor := "#FFC93C" }
    else s0
  match correctIndex with
  | some c =>
    if c = index then
      { s1 with bgStart := "#00FFBF", bgEnd := "#00CC99",
                borderColor := "#00CC99", textColor := "#141414" }
    else if selectedIndex = some index then
      { s1 with bgStart := "#FF2B6D", bgEnd := "#CC2255", borderColor := "#CC2255" }
    else s1
  | none => s1

/-! ## QuizUIManager (frontend/src/core/managers/QuizUIManager.ts) -/

structure QuizUIState where
  quizContainer : Option ContainerState
  deriving Repr, DecidableEq

/-- `QuizUIManager.showQuestion(text, options)`: creates the container if
absent, then `updateQuiz` with fresh data (no selection, no reveal). -/
def QuizUIState.showQuestion (m : QuizUIState) (text : String)
    (options : List String) : QuizUIState :=
  let c := m.quizContainer.getD newContainer
  { quizContainer := some (c.updateQuiz { question := text, options := options }) }

/-- `QuizUIManager.setFeedback(selectedIndex, correctIndex?)`: early-returns
when there is no container or no current data; otherwise `updateQuiz` with
the current data spread and the two index fields replaced. -/
def QuizUIState.setFeedback (m : QuizUIState) (selectedIndex : ℕ)
    (correctIndex : Option ℕ) : QuizUIState :=
  match m.quizContainer with
  | none => m
  | some c =>
    match c.currentData with
    | none => m
    | some d =>
      { quizContainer := some (c.updateQuiz
          { d with selectedIndex := some selectedIndex, correctIndex := correctIndex }) }

/-- `QuizUIManager.hideAll()`: removes and disposes the container. -/
def QuizUIState.hideAll (_m : QuizUIState) : QuizUIState :=
  { quizContainer := none }

/-- The Y-band scan of `getSelectedOptionIndex`: loop
`for i in 0 .. options.length - 1`, return the first `i` with
`optionY <= canvasY <= optionY + optionHeight` where
`optionY = startY + i*(optionHeight+optionSpacing)`; `-1` when none match.
`fuel` counts the remaining iterations, `i` is the loop index. -/
def optionBandScan (canvasY : ℚ) : ℕ → ℕ → ℤ
  | 0, _ => -1
  | fuel + 1, i =>
    let startY : ℚ := 450
    let optionHeight : ℚ := 100
    let optionSpacing : ℚ := 20
    let optionY := startY + (i : ℚ) * (optionHeight + optionSpacing)
    if optionY ≤ canvasY ∧ canvasY ≤ optionY + optionHeight then (i : ℤ)
    else optionBandScan canvasY fuel (i + 1)

/-- `QuizUIManager.getSelectedOptionIndex(intersectionPoint)`, taking the
panel-local point (the result of `worldToLocal`) as input: `-1` without a
container or data; otherwise maps the local point to canvas coordinates with
the hard-coded `(x + 1) * 512` / `(1 - y) * 512` transform, rejects points
outside the horizontal option band, and scans the vertical bands. -/
def QuizUIState.getSelectedOptionIndex (m : QuizUIState) (localPoint : ℚ × ℚ) : ℤ :=
  match m.quizContainer with
  | none => -1
  | some c =>
    match c.currentData with
    | none => -1
    | some data =>
      let canvasX := (localPoint.1 + 1) * 512
      let canvasY := (1 - localPoint.2) * 512
      let optionWidth : ℚ := 1024 - 160
      let optionX : ℚ := (1024 - optionWidth) / 2
      if canvasX < optionX ∨ canvasX > optionX + optionWidth then -1
      else optionBandScan canvasY data.options.length 0

/-- The canvas point the hit-test transform of `getSelectedOptionIndex`
associates to a panel-local point. -/
def hitCanvasOfLocal (p : ℚ × ℚ) : ℚ × ℚ :=
  ((p.1 + 1) * 512, (1 - p.2) * 512)

/-- A quiz state as produced by showing a four-option question. -/
def sampleData : QuizContainerData :=
  { question := "q", options := ["A", "B", "C", "D"] }

def shownState : QuizUIState :=
  { quizContainer := some { currentData := some sampleData, repaintCount := 1 } }

theorem optionBandScan_four (cy : ℚ) :
    optionBandScan cy 4 0 =
      if 450 ≤ cy ∧ cy ≤ 550 then 0
      else if 570 ≤ cy ∧ cy ≤ 670 then 1
      else if 690 ≤ cy ∧ cy ≤ 790 then 2
      else if 810 ≤ cy ∧ cy ≤ 910 then 3
      else -1 := by
  simp only [optionBandScan]
  norm_num

theorem getSelectedOptionIndex_shown (m : QuizUIState) (c : ContainerState)
    (d : QuizContainerData) (hm : m.quizContainer = some c)
    (hd : c.currentData = some d) (P : ℚ × ℚ) :
    m.getSelectedOptionIndex P =
      if (P.1 + 1) * 512 < 80 ∨ (P.1 + 1) * 512 > 944 then -1
      else optionBandScan ((1 - P.2) * 512) d.options.length 0 := by
  simp only [QuizUIState.getSelectedOptionIndex, hm, hd]
  norm_num

/-- C1 (divergence witness): the claim says the hit-test transform of
`getSelectedOptionIndex` matches the paint transform of the
`planeSide × planeSide` plane the container is drawn on.  It does not: the
hit-test hard-codes a 2.0×2.0 panel (`(x+1)*512`) while the constructor
creates `PlaneGeometry(1.6, 1.6)`.  At the panel-local point `(0, -1/2)` the
paint transform lands at canvas `(512, 832)`, inside option 3's painted
pill, yet `getSelectedOptionIndex` maps the same point to canvas row 768 and
returns option 2. -/
theorem claim_C1_paint_hittest_disagree :
    pillContains 3 (paintCanvasOfLocal (0, -1/2)) ∧
    shownState.getSelectedOptionIndex (0, -1/2) = 2 ∧
    hitCanvasOfLocal (0, -1/2) ≠ paintCanvasOfLocal (0, -1/2) := by
  refine ⟨by norm_num [pillContains, paintCanvasOfLocal, planeSide, canvasSide], ?_, ?_⟩
  · rw [getSelectedOptionIndex_shown shownState _ sampleData rfl rfl]
    rw [if_neg (by norm_num)]
    show optionBandScan ((1 - (-1/2 : ℚ)) * 512) 4 0 = 2
    rw [optionBandScan_four]
    norm_num
  · intro h
    have h2 := congrArg Prod.snd h
    simp only [hitCanvasOfLocal, paintCanvasOfLocal, planeSide, canvasSide] at h2
    norm_num at h2

/-- C2: with a panel showing four options, a panel-local point whose mapped
canvas X lies in the shared horizontal band `[80, 944]` and whose mapped
canvas Y lies strictly inside option `i`'s vertical band
`(450 + 120·i, 550 + 120·i)` resolves to `i`; a point outside the horizontal
band, or whose mapped Y misses every vertical band, resolves to `-1`. -/
theorem claim_C2_band_resolution (m : QuizUIState) (c : ContainerState)
    (d : QuizContainerData) (hm : m.quizContainer = some c)
    (hd : c.currentData = some d) (hlen : d.options.length = 4) (P : ℚ × ℚ) :
    ((80 ≤ (hitCanvasOfLocal P).1 ∧ (hitCanvasOfLocal P).1 ≤ 944) →
      ∀ i : ℕ, i < 4 →
        (450 + 120 * (i : ℚ) < (hitCanvasOfLocal P).2 ∧
          (hitCanvasOfLocal P).2 < 550 + 120 * (i : ℚ)) →
        m.getSelectedOptionIndex P = (i : ℤ))
    ∧ (((hitCanvasOfLocal P).1 < 80 ∨ 944 < (hitCanvasOfLocal P).1) →
        m.getSelectedOptionIndex P = -1)
    ∧ ((∀ i : ℕ, i < 4 →
          ((hitCanvasOfLocal P).2 < 450 + 120 * (i : ℚ) ∨
            550 + 120 * (i : ℚ) < (hitCanvasOfLocal P).2)) →
        m.getSelectedOptionIndex P = -1) := by
  have hrw := getSelectedOptionIndex_shown m c d hm hd P
  rw [hlen] at hrw
  simp only [hitCanvasOfLocal]
  refine ⟨?_, ?_, ?_⟩
  · rintro ⟨hx1, hx2⟩ i hi ⟨hy1, hy2⟩
    rw [hrw, if_neg (by push_neg; constructor <;> linarith), optionBandScan_four]
    interval_cases i
    · norm_num at hy1 hy2
      rw [if_pos ⟨by linarith, by linarith⟩]
      norm_num
    · norm_num at hy1 hy2
      rw [if_neg (by rintro ⟨-, h⟩; linarith), if_pos ⟨by linarith, by linarith⟩]
      norm_num
    · norm_num at hy1 hy2
      rw [if_neg (by rintro ⟨-, h⟩; linarith), if_neg (by rintro ⟨-, h⟩; linarith),
        if_pos ⟨by linarith, by linarith⟩]
      norm_num
    · norm_num at hy1 hy2
      rw [if_neg (by rintro ⟨-, h⟩; linarith), if_neg (by rintro ⟨-, h⟩; linarith),
        if_neg (by rintro ⟨-, h⟩; linarith), if_pos ⟨by linarith, by linarith⟩]
      norm_num
  · intro hx
    rw [hrw, if_pos (by exact hx)]
  · intro hy
    have h0 := hy 0 (by norm_num)
    have h1 := hy 1 (by norm_num)
    have h2 := hy 2 (by norm_num)
    have h3 := hy 3 (by norm_num)
    norm_num at h0 h1 h2 h3
    rw [hrw]
    by_cases hx : (P.1 + 1) * 512 < 80 ∨ (P.1 + 1) * 512 > 944
    · rw [if_pos hx]
    · rw [if_neg hx, optionBandScan_four]
      rw [if_neg (by rintro ⟨ha, hb⟩; rcases h0 with h | h <;> linarith),
        if_neg (by rintro ⟨ha, hb⟩; rcases h1 with h | h <;> linarith),
        if_neg (by rintro ⟨ha, hb⟩; rcases h2 with h | h <;> linarith),
        if_neg (by rintro ⟨ha, hb⟩; rcases h3 with h | h <;> linarith)]

theorem claim_C2_band_resolution_witness :
    shownState.getSelectedOptionIndex (0, -1/4) = 1 ∧
    shownState.getSelectedOptionIndex (9/10, 0) = -1 ∧
    shownState.getSelectedOptionIndex (0, 9/10) = -1 := by
  have h := claim_C2_band_resolution shownState _ sampleData rfl rfl rfl
  refine ⟨?_, ?_, ?_⟩
  · exact (h (0, -1/4)).1 (by norm_num [hitCanvasOfLocal]) 1 (by norm_num)
      (by norm_num [hitCanvasOfLocal])
  · exact (h (9/10, 0)).2.1 (by norm_num [hitCanvasOfLocal])
  · refine (h (0, 9/10)).2.2 ?_
    intro i hi
    interval_cases i <;> norm_num [hitCanvasOfLocal]

/-- Base option styling in `drawOptions` (no selection, no reveal). -/
def defaultStyle : OptionStyle :=
  { bgStart := "#9B5DFF", bgEnd := "#7B3FDF",
    borderColor := "#D9A500", textColor := "#FFFFFF" }

/-- Styling of the selected option before the correct index is revealed. -/
def selectedStyle : OptionStyle :=
  { bgStart := "#6B25C4", bgEnd := "#7B3FDF",
    borderColor := "#FFC93C", textColor := "#FFFFFF" }

/-- Styling of the revealed correct option. -/
def correctStyle : OptionStyle :=
  { bgStart := "#00FFBF", bgEnd := "#00CC99",
    borderColor := "#00CC99", textColor := "#141414" }

/-- Styling of a selected option that turns out to be incorrect. -/
def incorrectSelectedStyle : OptionStyle :=
  { bgStart := "#FF2B6D", bgEnd := "#CC2255",
    borderColor := "#CC2255", textColor := "#FFFFFF" }

/-- C8: `drawOptions` computes exactly one style per option — always one of
the four named styles; whenever `correctIndex` is defined and equals the
option's index the correct style wins, regardless of `selectedIndex`; and a
selected option that is not the revealed correct one gets the
incorrect-selected style. -/
theorem claim_C8_option_styles (sel cor : Option ℕ) (i : ℕ) :
    (optionStyle sel cor i = defaultStyle ∨ optionStyle sel cor i = selectedStyle ∨
      optionStyle sel cor i = correctStyle ∨ optionStyle sel cor i = incorrectSelectedStyle)
    ∧ (cor = some i → optionStyle sel cor i = correctStyle)
    ∧ (∀ c, cor = some c → c ≠ i → sel = some i →
        optionStyle sel cor i = incorrectSelectedStyle) := by
  refine ⟨?_, ?_, ?_⟩
  · cases cor with
    | none =>
      by_cases hs : sel = some i <;>
        simp [optionStyle, hs, defaultStyle, selectedStyle]
    | some c =>
      by_cases hc : c = i <;> by_cases hs : sel = some i <;>
        simp [optionStyle, hc, hs, defaultStyle, selectedStyle,
          correctStyle, incorrectSelectedStyle]
  · rintro rfl
    by_cases hs : sel = some i <;>
      simp [optionStyle, hs, correctStyle]
  · rintro c rfl hne hs
    simp [optionStyle, hne, hs, incorrectSelectedStyle, selectedStyle]

theorem claim_C8_option_styles_witness :
    optionStyle (some 1) (some 1) 1 = correctStyle ∧
    optionStyle (some 0) (some 1) 0 = incorrectSelectedStyle :=
  ⟨(claim_C8_option_styles (some 1) (some 1) 1).2.1 rfl,
   (claim_C8_option_styles (some 0) (some 1) 0).2.2 1 rfl (by norm_num) rfl⟩

/-- C10: `setFeedback(selectedIndex, correctIndex)` only replaces the two
index fields of the currently shown data — question text and options pass
through unchanged (with one repaint) — and is a strict no-op (same state, no
repaint) when no container is shown or the container holds no data. -/
theorem claim_C10_setFeedback_frame (m : QuizUIState) (sel : ℕ) (cor : Option ℕ) :
    (m.quizContainer = none → m.setFeedback sel cor = m)
    ∧ (∀ c, m.quizContainer = some c → c.currentData = none →
        m.setFeedback sel cor = m)
    ∧ (∀ c d, m.quizContainer = some c → c.currentData = some d →
        m.setFeedback sel cor =
          { quizContainer := some
              { currentData := some
                  { question := d.question, options := d.options,
                    selectedIndex := some sel, correctIndex := cor },
                repaintCount := c.repaintCount + 1 } }) := by
  refine ⟨?_, ?_, ?_⟩
  · intro h
    simp [QuizUIState.setFeedback, h]
  · intro c hc hd
    simp [QuizUIState.setFeedback, hc, hd]
  · intro c d hc hd
    simp [QuizUIState.setFeedback, hc, hd, ContainerState.updateQuiz]

theorem claim_C10_setFeedback_frame_witness :
    shownState.setFeedback 2 (some 0) =
      { quizContainer := some
          { currentData := some
              { question := sampleData.question, options := sampleData.options,
                selectedIndex := some 2, correctIndex := some 0 },
            repaintCount := 2 } } :=
  (claim_C10_setFeedback_frame shownState 2 (some 0)).2.2 _ sampleData rfl rfl

/-! ## InteractionManager (frontend/src/core/managers/InteractionManager.ts)

A scene object is a tree (`Object3D` with children).  The geometry of a
concrete ray against concrete meshes is abstracted by a hit oracle
`RayHits : ℕ → Option (ℚ × (ℚ × ℚ))` giving, per object id, the distance
and intersection point of the ray with that object — two "geometrically
identical rays" are by definition the same oracle.  `intersectObjects`
collects the hits of the tested objects (the objects themselves, plus all
descendants when `recursive` is set, as three.js does) and returns them
nearest-first; `checkIntersection` invokes the registered handler with the
nearest hit's `(object, point)`. -/

inductive Obj where
  | node (oid : ℕ) (children : List Obj)

def Obj.oid : Obj → ℕ
  | .node i _ => i

def Obj.children : Obj → List Obj
  | .node _ cs => cs

mutual

def Obj.descendants : Obj → List Obj
  | .node i cs => .node i cs :: descendantsList cs

def descendantsList : List Obj → List Obj
  | [] => []
  | o :: os => o.descendants ++ descendantsList os

end

/-- Ray geometry oracle: distance and intersection point per object id. -/
def RayHits : Type := ℕ → Option (ℚ × (ℚ × ℚ))

structure Hit where
  dist : ℚ
  objId : ℕ
  point : ℚ × ℚ
  deriving Repr, DecidableEq

/-- The objects actually tested by `raycaster.intersectObjects(objects,
recursive)`: each listed object, and its whole subtree when `recursive`. -/
def collectTargets (recursive : Bool) (objects : List Obj) : List Obj :=
  if recursive then descendantsList objects else objects

def intersectTargets (ray : RayHits) (targets : List Obj) : List Hit :=
  targets.filterMap fun o => (ray o.oid).map fun dp => ⟨dp.1, o.oid, dp.2⟩

/-- First element of the distance-sorted intersection list (`intersects[0]`):
the hit with minimal distance, earliest on ties (three.js sorts stably,
ascending by distance). -/
def nearestHit : List Hit → Option Hit
  | [] => none
  | h :: t =>
    match nearestHit t with
    | none => some h
    | some h2 => if h2.dist < h.dist then some h2 else some h

/-- `InteractionManager.checkIntersection(objects, recursive)`: returns the
`(object, point)` the select handler is invoked with, or `none` when nothing
is invoked (empty object list, no hit, or no registered handler).  The
source raises no error on any of these paths. -/
def checkIntersection (hasHandler : Bool) (ray : RayHits)
    (objects : List Obj) (recursive : Bool) : Option (ℕ × (ℚ × ℚ)) :=
  if objects.length = 0 then none
  else
    match nearestHit (intersectTargets ray (collectTargets recursive objects)) with
    | some h => if hasHandler then some (h.objId, h.point) else none
    | none => none

/-- The pointer (mouse click) path: `checkIntersection(objects, true)`. -/
def pointerDispatch (hasHandler : Bool) (ray : RayHits) (objects : List Obj) :
    Option (ℕ × (ℚ × ℚ)) :=
  checkIntersection hasHandler ray objects true

/-- The VR-controller `selectstart` path: `checkIntersection(objects, false)`. -/
def controllerDispatch (hasHandler : Bool) (ray : RayHits) (objects : List Obj) :
    Option (ℕ × (ℚ × ℚ)) :=
  checkIntersection hasHandler ray objects false

theorem descendants_leaf (o : Obj) (h : o.children = []) :
    o.descendants = [o] := by
  cases o with
  | node i cs =>
    simp only [Obj.children] at h
    simp [Obj.descendants, h, descendantsList]

theorem descendantsList_of_leaves (objects : List Obj)
    (h : ∀ o ∈ objects, o.children = []) : descendantsList objects = objects := by
  induction objects with
  | nil => rfl
  | cons o os ih =>
    rw [descendantsList, descendants_leaf o (h o (by simp)), ih (fun x hx => h x (by simp [hx]))]
    rfl

/-- The `QuizContainer3D` instance as a scene object: it extends
`THREE.Mesh` and adds no children. -/
def quizContainerObj : Obj := Obj.node 0 []

/-- `QuizUIManager.getInteractiveObjects()`: the singleton list holding the
container while it is shown, the empty list otherwise. -/
def QuizUIState.getInteractiveObjects (m : QuizUIState) : List Obj :=
  match m.quizContainer with
  | some _ => [quizContainerObj]
  | none => []

/-- C3: input-device independence.  For a pointer click and a controller
select producing geometrically identical rays (the same hit oracle) against
the same registered objects — which, as registered by `QuizUIManager`, have
no children — the two dispatch paths invoke the handler with the same
`(object, point)`, and composing with the Option Hit-Tester therefore
yields the same option index; `getSelectedOptionIndex` itself takes only
the point and the panel state, with no device input. -/
theorem claim_C3_device_independence (hasHandler : Bool) (ray : RayHits)
    (objects : List Obj) (hleaf : ∀ o ∈ objects, o.children = []) :
    pointerDispatch hasHandler ray objects = controllerDispatch hasHandler ray objects
    ∧ ∀ m : QuizUIState,
        Option.map (fun r => m.getSelectedOptionIndex r.2)
            (pointerDispatch hasHandler ray objects) =
          Option.map (fun r => m.getSelectedOptionIndex r.2)
            (controllerDispatch hasHandler ray objects) := by
  have hkey : pointerDispatch hasHandler ray objects =
      controllerDispatch hasHandler ray objects := by
    unfold pointerDispatch controllerDispatch checkIntersection
    rw [show collectTargets true objects = objects from by
          simp [collectTargets, descendantsList_of_leaves objects hleaf],
      show collectTargets false objects = objects from by simp [collectTargets]]
  exact ⟨hkey, fun m => by rw [hkey]⟩

theorem claim_C3_device_independence_witness :
    pointerDispatch true (fun _ => some (1, (0, -1/4))) [Obj.node 0 []] =
      controllerDispatch true (fun _ => some (1, (0, -1/4))) [Obj.node 0 []] :=
  (claim_C3_device_independence true (fun _ => some (1, (0, -1/4))) [Obj.node 0 []]
    (by intro o ho; rw [List.mem_singleton.mp ho]; rfl)).1

/-- C7: after `hideAll()` the interactive-object set is empty and the
hit-tester answers `-1` everywhere; and a selection dispatched with an empty
object set, or without a registered handler, or with a ray hitting nothing,
invokes no callback (the embedding is total — no error path exists). -/
theorem claim_C7_hide_dispatch_safety (m : QuizUIState) :
    m.hideAll.getInteractiveObjects = []
    ∧ (∀ p, m.hideAll.getSelectedOptionIndex p = -1)
    ∧ (∀ hasHandler ray recursive, checkIntersection hasHandler ray [] recursive = none)
    ∧ (∀ ray objects recursive, checkIntersection false ray objects recursive = none)
    ∧ (∀ hasHandler objects recursive,
        checkIntersection hasHandler (fun _ => none) objects recursive = none) := by
  refine ⟨rfl, fun p => rfl, fun hasHandler ray recursive => rfl, ?_, ?_⟩
  · intro ray objects recursive
    by_cases h : objects.length = 0
    · simp [checkIntersection, h]
    · simp only [checkIntersection, if_neg h]
      cases nearestHit (intersectTargets ray (collectTargets recursive objects)) with
      | none => rfl
      | some h2 => simp
  · intro hasHandler objects recursive
    have hempty : intersectTargets (fun _ => none) (collectTargets recursive objects) = [] := by
      simp [intersectTargets]
    by_cases h : objects.length = 0
    · simp [checkIntersection, h]
    · simp only [checkIntersection, if_neg h, hempty]
      rfl

/-! ## QuestionsService (backend/src/questions/questions.service.ts)

Entities mirror `question.entity.ts` / `question-translation.entity.ts`;
`QuestionPublicDto` mirrors `dto/question-public.dto.ts`, whose source notes
that the correct answer is intentionally omitted.  `publicDtoOfTranslation`
is the object literal `getRandom` returns for the randomly selected
translation (the random row choice itself is database-side). -/

structure Question where
  id : ℕ
  difficulty : String
  category : Option String
  imageUrl : Option String
  deriving Repr, DecidableEq

structure QuestionTranslation where
  id : ℕ
  question : Question
  language : String
  text : String
  options : List String
  correctAnswer : String
  deriving Repr, DecidableEq

structure QuestionPublicDto where
  id : ℕ
  text : String
  options : List String
  difficulty : String
  category : Option String
  imageUrl : Option String
  language : String
  deriving Repr, DecidableEq

/-- The DTO `QuestionsService.getRandom` builds from the selected
translation. -/
def publicDtoOfTranslation (t : QuestionTranslation) : QuestionPublicDto :=
  { id := t.question.id, text := t.text, options := t.options,
    difficulty := t.question.difficulty, category := t.question.category,
    imageUrl := t.question.imageUrl, language := t.language }

def sampleQuestion : Question :=
  { id := 1, difficulty := "easy", category := none, imageUrl := none }

def sampleTranslationA : QuestionTranslation :=
  { id := 1, question := sampleQuestion, language := "it", text := "testo",
    options := ["a", "b", "c", "d"], correctAnswer := "a" }

def sampleTranslationB : QuestionTranslation :=
  { id := 1, question := sampleQuestion, language := "it", text := "testo",
    options := ["a", "b", "c", "d"], correctAnswer := "b" }

/-- C9 (counterexample): the claim says the question-source DTO carries the
correct-answer index.  It cannot: two stored translations that differ only
in their correct answer are mapped by `getRandom` to identical public DTOs
(the DTO type has no correct-answer field — the source omits it
deliberately). -/
theorem claim_C9_counterexample :
    sampleTranslationA.correctAnswer ≠ sampleTranslationB.correctAnswer ∧
    publicDtoOfTranslation sampleTranslationA = publicDtoOfTranslation sampleTranslationB := by
  refine ⟨?_, rfl⟩
  intro h
  simp [sampleTranslationA, sampleTranslationB] at h

/-- C9 (amended): the question-source operation returns the question text
and the options (plus id, difficulty, category, imageUrl and language), but
not the correct answer: the DTO is invariant under changing the stored
`correctAnswer`, which stays server-side for `checkAnswer`. -/
theorem claim_C9_amended (t : QuestionTranslation) :
    (publicDtoOfTranslation t).text = t.text
    ∧ (publicDtoOfTranslation t).options = t.options
    ∧ (publicDtoOfTranslation t).id = t.question.id
    ∧ (publicDtoOfTranslation t).language = t.language
    ∧ ∀ answer : String,
        publicDtoOfTranslation { t with correctAnswer := answer } =
          publicDtoOfTranslation t :=
  ⟨rfl, rfl, rfl, rfl, fun _ => rfl⟩

end BrainArena
